import Mathlib

/-
Verification of the C# binding source generator
(`interfaces/sourcegen/sourcegen/csharp/_SourceGenerator.py`).

The generator's decision logic is embedded shallowly: Python strings become
`String`, the parsed signature tuples become structures, Python `dict`s become
association lists (insertion conses at the front, lookup takes the first
match, which reproduces last-write-wins), and a raised exception becomes the
`.error` case of `Except`, which aborts the computation before any later
side effect (in particular before the registry insertion at the end of
`_convert_func`).
-/

namespace CanteraCs

/-- One function parameter as parsed upstream (the `Param` named tuple of
`sourcegen/_types.py`): a type string and the parameter name. -/
structure Param where
  p_type : String
  name : String
deriving DecidableEq

/-- A parsed C function signature (the `Func` named tuple of
`sourcegen/_types.py`): return type, full flat name, ordered parameters. -/
structure Func where
  ret_type : String
  name : String
  params : List Param
deriving DecidableEq

/-- The `_CsFunc` dataclass of `_SourceGenerator.py`: a converted C# method. -/
structure _CsFunc where
  ret_type : String
  name : String
  params : List Param
  del_clazz : Option String
deriving DecidableEq

/-- The slice of the configuration dictionary that `_convert_func` reads:
the `handle_crosswalk` table mapping a class prefix to its base handle name.
(The `derived_handles` and `classes` tables are consumed only by `finalize`,
which no conversion claim depends on.) -/
structure Config where
  handle_crosswalk : List (String × String)
deriving DecidableEq

/-- Python dict lookup (`d.get(k)` respectively `d[k]`), modelled on an
association list whose insertions cons at the front: the first match is the
most recent write, so lookup agrees with dict semantics. -/
def assocLookup {α : Type} : List (String × α) → String → Option α
  | [], _ => none
  | (k, v) :: rest, t => if k = t then some v else assocLookup rest t

/-- The registry `self._known_funcs`: function name to converted function. -/
abbrev Registry := List (String × _CsFunc)

/-- Boolean prefix test on character lists, the semantics of Python
`str.startswith`. -/
def charsLead : List Char → List Char → Bool
  | [], _ => true
  | _ :: _, [] => false
  | a :: as, b :: bs => if a = b then charsLead as bs else false

/-- Python `method.startswith(p)`. -/
def pyStartsWith (s p : String) : Bool := charsLead p.data s.data

/-- Python `s.endswith(p)` (used by `_get_function_text` as
`p.p_type.endswith('*')`). -/
def pyEndsWith (s p : String) : Bool := charsLead p.data.reverse s.data.reverse

/-- Python `str.capitalize()`: first character upper-cased, the remaining
characters lower-cased. -/
def pyCapitalize (s : String) : String :=
  match s.data with
  | [] => ""
  | c :: rest => String.mk (c.toUpper :: rest.map Char.toLower)

/-- The ASCII character class `[A-Z]` of the regular expression
`^set_[A-Z]{2}$`. -/
def isAZ (c : Char) : Bool := 'A' ≤ c && c ≤ 'Z'

/-- `re.match('^set_[A-Z]{2}$', method)` as a Boolean: the whole string is
`set_` followed by exactly two ASCII capitals. (Python's `$` also matches
just before one trailing newline, hence the second pattern.) -/
def setPairMatch (m : String) : Bool :=
  match m.data with
  | ['s', 'e', 't', '_', a, b] => isAZ a && isAZ b
  | ['s', 'e', 't', '_', a, b, '\n'] => isAZ a && isAZ b
  | _ => false

/-- Split a character list at the first `'_'`. -/
def splitUnder : List Char → Option (List Char × List Char)
  | [] => none
  | c :: rest =>
    if c = '_' then some ([], rest)
    else
      match splitUnder rest with
      | none => none
      | some (a, b) => some (c :: a, b)

/-- Python `name.split('_', 1)` unpacked into two components: `none` models
the `ValueError` raised by unpacking when the name has no underscore. -/
def splitFirst (s : String) : Option (String × String) :=
  match splitUnder s.data with
  | none => none
  | some (a, b) => some (String.mk a, String.mk b)

/-- Modelled from the spec: `normalize` lives in `sourcegen/_helpers.py`, which
is not among the provided sources. The spec treats it as mechanical
text-layout boilerplate with no decision logic ("everything else is
mechanical"), so it is modelled as the identity on the text. -/
def normalize (s : String) : String := s

/-- The exceptions `_convert_func` can raise, in program-point order:
unpacking a name without an underscore (`ValueError`), a class prefix
missing from `handle_crosswalk` (`KeyError`), `params[0]` on an empty
parameter list (`IndexError`), and the explicit `ValueError` for a second
double-array setter parameter. -/
inductive ConvErr where
  | noUnderscore
  | unknownClass (clazz : String)
  | indexError
  | arrayArity (name : String)
deriving DecidableEq

/-- The class attribute `_type_map`, in declaration order. -/
def _type_map : List (String × String) :=
  [("const char*", "string"), ("const double*", "double[]"),
   ("size_t", "nuint"), ("char*", "byte*")]

/-- The `for c_type, cs_type in self._type_map.items(): if t == c_type: ...
break` loop applied to one type: exact first match is substituted, anything
else passes through unchanged. -/
def crosswalkType (t : String) : String :=
  match assocLookup _type_map t with
  | some cs_type => cs_type
  | none => t

/-- The class attribute `_prop_type_map`, in declaration order. -/
def _prop_type_map : List (String × String) :=
  [("byte*", "string"), ("double*", "double[]")]

/-- The parameter loop of `_convert_func` (the `for i in range(0, len(params))`
body): crosswalk each parameter type (`param_type`), then apply the setter
double-array rules. `count` is `setter_double_arrays_count` before the
current parameter; incrementing it past 1 raises the `ValueError` ("Cannot
scaffold ... more than one array of doubles!"), modelled as
`.error (.arrayArity name)`, which aborts the rest of the loop. -/
def convertParams (name clazz method : String) : Nat → List Param → Except ConvErr (List Param)
  | _, [] => .ok []
  | count, p :: rest =>
    if crosswalkType p.p_type = "double*" ∧ pyStartsWith method "set" = true then
      if count + 1 > 1 then
        .error (.arrayArity name)
      else
        match convertParams name clazz method (count + 1) rest with
        | .error e => .error e
        | .ok ps =>
          .ok (Param.mk
            (if clazz = "thermo" ∧ setPairMatch method = true then "(double, double)*"
             else "double[]") p.name :: ps)
    else
      match convertParams name clazz method count rest with
      | .error e => .error e
      | .ok ps => .ok (Param.mk (crosswalkType p.p_type) p.name :: ps)

/-- The classification step of `_convert_func` (the `if clazz != 'ct':` block):
for non-global functions, resolve the handle type through `handle_crosswalk`
(a missing prefix is a `KeyError`), then mark deleters, rewrite the return
type of constructors, or substitute the handle type into parameter 0
(an `IndexError` when there is no parameter 0). Returns the possibly
rewritten return type, parameter list and `del_clazz`. -/
def substStep (cfg : Config) (clazz method ret_type : String) (params : List Param) :
    Except ConvErr (String × List Param × Option String) :=
  if clazz = "ct" then .ok (ret_type, params, none)
  else
    match assocLookup cfg.handle_crosswalk clazz with
    | none => .error (.unknownClass clazz)
    | some base =>
      let handle_clazz := base ++ "Handle"
      if pyStartsWith method "del" = true then .ok (ret_type, params, some handle_clazz)
      else if pyStartsWith method "new" = true then .ok (handle_clazz, params, none)
      else
        match params with
        | [] => .error .indexError
        | p :: rest => .ok (ret_type, Param.mk handle_clazz p.name :: rest, none)

/-- `SourceGenerator._convert_func`: split the name at the first underscore,
classify and substitute handles, crosswalk the return type and every
parameter type with the setter array rules, then register the result under
the unmodified name and return it. A raise (`.error`) aborts before the
registry insertion, so a failing call leaves the registry unchanged. -/
def convert_func (cfg : Config) (known_funcs : Registry) (parsed : Func) :
    Except ConvErr (_CsFunc × Registry) :=
  match splitFirst parsed.name with
  | none => .error .noUnderscore
  | some (clazz, method) =>
    match substStep cfg clazz method parsed.ret_type parsed.params with
    | .error e => .error e
    | .ok (ret_type, params, del_clazz) =>
      match convertParams parsed.name clazz method 0 params with
      | .error e => .error e
      | .ok params2 =>
        let func : _CsFunc := ⟨crosswalkType ret_type, parsed.name, params2, del_clazz⟩
        .ok (func, (parsed.name, func) :: known_funcs)

/-- `SourceGenerator._join_params`. -/
def _join_params (params : List Param) : String :=
  String.intercalate ", " (params.map fun p => p.p_type ++ " " ++ p.name)

/-- The class attribute `_prolog` (`normalize` applied to the literal). -/
def _prolog : String :=
  normalize "\n        [DllImport(LibFile)]\n        public static extern\n    "

/-- `SourceGenerator._get_function_text`: the foreign-function declaration of
one converted function, with the `unsafe` marker exactly when some
parameter's type ends in `*`. -/
def _get_function_text (function : _CsFunc) : String :=
  if function.params.any (fun p => pyEndsWith p.p_type "*") then
    _prolog ++ " unsafe " ++ function.ret_type ++ " " ++ function.name
      ++ "(" ++ _join_params function.params ++ ");"
  else
    _prolog ++ " " ++ function.ret_type ++ " " ++ function.name
      ++ "(" ++ _join_params function.params ++ ");"

/-- The conversion pass of `generate_source` over one unit:
`[self._convert_func(f) for f in funcs]`, threading the registry; an
exception aborts the whole unit. -/
def convert_unit (cfg : Config) : Registry → List Func → Except ConvErr (List _CsFunc × Registry)
  | known_funcs, [] => .ok ([], known_funcs)
  | known_funcs, f :: fs =>
    match convert_func cfg known_funcs f with
    | .error e => .error e
    | .ok (cs_func, known_funcs2) =>
      match convert_unit cfg known_funcs2 fs with
      | .error e => .error e
      | .ok (cs_funcs, known_funcs3) => .ok (cs_func :: cs_funcs, known_funcs3)

/-- One run over one unit starting from a fresh empty registry, rendering the
declaration text of every converted function (the inputs to the
`'\n\n'.join` of `generate_source`). -/
def declsOfUnit (cfg : Config) (funcs : List Func) : Except ConvErr (List String) :=
  match convert_unit cfg [] funcs with
  | .error e => .error e
  | .ok (cs_funcs, _) => .ok (cs_funcs.map _get_function_text)

/-- The exceptions `_get_property_text` can raise, in program-point order:
`KeyError` on the array-getter registry lookup, `IndexError` on
`params[-1]` or `params[1]`, `KeyError` on `_prop_type_map`, and the
`ValueError` ("Unable to scaffold properties of type ...") which names the
offending property type. -/
inductive PropErr where
  | keyError (key : String)
  | indexError
  | propTypeKeyError (p_type : String)
  | unsupported (prop_type : String)
deriving DecidableEq

/-- The optional setter fragment appended to a property's text when
`clazz + "_set" + capitalize(c_name)` is registered. -/
def setterClause (setter : Option _CsFunc) : String :=
  match setter with
  | some s =>
      "\n                    set => InteropUtil.CheckReturn(\n                        LibCantera."
        ++ s.name ++ "(_handle, value));"
  | none => ""

/-- The scalar-property accessor text of `_get_property_text` (the
`prop_type in ['int', 'double']` branch), before `normalize`. -/
def scalarPropText (prop_type cs_name getter_name : String) (setter : Option _CsFunc) : String :=
  "\n                public " ++ prop_type ++ " " ++ cs_name
    ++ "\n                \x7b\n                    get => InteropUtil.CheckReturn(\n                        LibCantera."
    ++ getter_name ++ "(_handle));"
    ++ setterClause setter
    ++ "\n                \x7d\n            "

/-- The string-property accessor text of `_get_property_text` (the
`prop_type == 'string'` branch), before `normalize`: the getter invokes the
native function with the handle, a cast length and a buffer, the cast using
`p_type`, the type of the getter's parameter at index 1. -/
def stringPropText (cs_name getter_name p_type : String) (setter : Option _CsFunc) : String :=
  "\n                public unsafe string " ++ cs_name
    ++ "\n                \x7b\n                    get => InteropUtil.GetString(40, (length, buffer) =>\n                        "
    ++ ("LibCantera." ++ getter_name ++ "(_handle, (" ++ p_type ++ ") length, buffer));")
    ++ "\n            "
    ++ setterClause setter
    ++ "\n                \x7d\n            "

/-- The tail of `_get_property_text` after the getter and its property type
have been resolved: look up the optional setter, then render per type;
a type outside `int`/`double`/`string` raises the `ValueError` naming it,
and the string branch indexes `getter.params[1]` (an `IndexError` when the
getter has fewer than two parameters). -/
def renderPropText (known_funcs : Registry) (clazz c_name cs_name : String)
    (getter : _CsFunc) (prop_type : String) : Except PropErr String :=
  let setter := assocLookup known_funcs (clazz ++ "_set" ++ pyCapitalize c_name)
  if prop_type = "int" ∨ prop_type = "double" then
    .ok (normalize (scalarPropText prop_type cs_name getter.name setter))
  else if prop_type = "string" then
    match getter.params.get? 1 with
    | none => .error .indexError
    | some p1 => .ok (normalize (stringPropText cs_name getter.name p1.p_type setter))
  else .error (.unsupported prop_type)

/-- `SourceGenerator._get_property_text`: resolve the getter as a scalar
property (`clazz + "_" + c_name`, property type is the getter's return
type) or else as an array/string property (`clazz + "_get" +
capitalize(c_name)`, property type inferred through `_prop_type_map` from
the type of the getter's last parameter), then render. -/
def _get_property_text (known_funcs : Registry) (clazz c_name cs_name : String) :
    Except PropErr String :=
  match assocLookup known_funcs (clazz ++ "_" ++ c_name) with
  | some getter => renderPropText known_funcs clazz c_name cs_name getter getter.ret_type
  | none =>
    match assocLookup known_funcs (clazz ++ "_get" ++ pyCapitalize c_name) with
    | none => .error (.keyError (clazz ++ "_get" ++ pyCapitalize c_name))
    | some getter =>
      match getter.params.getLast? with
      | none => .error .indexError
      | some lastp =>
        match assocLookup _prop_type_map lastp.p_type with
        | none => .error (.propTypeKeyError lastp.p_type)
        | some prop_type => renderPropText known_funcs clazz c_name cs_name getter prop_type

/- ### Helper lemmas about the string primitives -/

lemma charsLead_append_self (l r : List Char) : charsLead l (l ++ r) = true := by
  induction l with
  | nil => rfl
  | cons a as ih => simp [charsLead, ih]

lemma charsLead_cons_same (a : Char) (as bs : List Char) :
    charsLead (a :: as) (a :: bs) = charsLead as bs := by
  simp [charsLead]

lemma charsLead_false_of_head_ne (a b : Char) (as bs : List Char) (h : a ≠ b) :
    charsLead (a :: as) (b :: bs) = false := by
  simp [charsLead, h]

lemma charsLead_head (a : Char) (as l : List Char) (h : charsLead (a :: as) l = true) :
    ∃ bs, l = a :: bs := by
  cases l with
  | nil => simp [charsLead] at h
  | cons b bs =>
    by_cases hab : a = b
    · exact ⟨bs, by rw [hab]⟩
    · rw [charsLead_false_of_head_ne a b as bs hab] at h
      exact absurd h (by simp)

/-- Two prefixes that begin with different characters exclude each other. -/
lemma startsWith_disjoint (m p q : String) (cp cq : Char) (ps qs : List Char)
    (hp : p.data = cp :: ps) (hq : q.data = cq :: qs) (hne : cq ≠ cp)
    (h : pyStartsWith m p = true) : pyStartsWith m q = false := by
  unfold pyStartsWith at h ⊢
  rw [hp] at h
  obtain ⟨bs, hbs⟩ := charsLead_head cp ps m.data h
  rw [hq, hbs]
  exact charsLead_false_of_head_ne cq cp qs bs hne

lemma pyStartsWith_set_of_setPairMatch (m : String) (h : setPairMatch m = true) :
    pyStartsWith m "set" = true := by
  unfold setPairMatch at h
  unfold pyStartsWith
  rw [show ("set" : String).data = ['s', 'e', 't'] from rfl]
  split at h
  · next a b heq =>
    rw [heq, charsLead_cons_same, charsLead_cons_same, charsLead_cons_same]
    rfl
  · next a b heq =>
    rw [heq, charsLead_cons_same, charsLead_cons_same, charsLead_cons_same]
    rfl
  · exact absurd h (by simp)

lemma string_data_append (a b : String) : (a ++ b).data = a.data ++ b.data := by
  cases a; cases b; rfl

/-- A string obtained by appending `"Handle"` differs from any string whose
reversed characters do not start with the reversal of `"Handle"`. -/
lemma append_handle_ne (base t : String)
    (hch : charsLead (("Handle" : String).data.reverse) t.data.reverse = false) :
    base ++ "Handle" ≠ t := by
  intro e
  have htrue : charsLead (("Handle" : String).data.reverse) t.data.reverse = true := by
    rw [← e, string_data_append, List.reverse_append]
    exact charsLead_append_self _ _
  rw [htrue] at hch
  exact Bool.noConfusion hch

/-- A handle type name never matches any entry of `_type_map`, so the
type crosswalk leaves it unchanged. -/
lemma crosswalkType_handle (base : String) :
    crosswalkType (base ++ "Handle") = base ++ "Handle" := by
  have h1 := Ne.symm (append_handle_ne base "const char*" (by decide))
  have h2 := Ne.symm (append_handle_ne base "const double*" (by decide))
  have h3 := Ne.symm (append_handle_ne base "size_t" (by decide))
  have h4 := Ne.symm (append_handle_ne base "char*" (by decide))
  simp [crosswalkType, assocLookup, _type_map, h1, h2, h3, h4]

lemma handle_ne_doublestar (base : String) : base ++ "Handle" ≠ "double*" :=
  append_handle_ne base "double*" (by decide)

/- ### Helper lemmas about the parameter-conversion loop -/

/-- Whenever the loop completes, its output is the pointwise image of its
input: a crosswalked `double*` parameter of a setter becomes either the
thermo pair-pointer type or `double[]`, and every other parameter is just
crosswalked, always keeping the original name. -/
lemma convertParams_ok_eq (name clazz method : String) :
    ∀ (count : Nat) (ps ps2 : List Param),
      convertParams name clazz method count ps = .ok ps2 →
      ps2 = ps.map (fun p =>
        if crosswalkType p.p_type = "double*" ∧ pyStartsWith method "set" = true then
          Param.mk
            (if clazz = "thermo" ∧ setPairMatch method = true then "(double, double)*"
             else "double[]") p.name
        else Param.mk (crosswalkType p.p_type) p.name) := by
  intro count ps
  induction ps generalizing count with
  | nil =>
    intro ps2 h
    simp only [convertParams] at h
    cases h
    rfl
  | cons p rest ih =>
    intro ps2 h
    simp only [convertParams] at h
    by_cases hc : crosswalkType p.p_type = "double*" ∧ pyStartsWith method "set" = true
    · rw [if_pos hc] at h
      by_cases h2 : count + 1 > 1
      · rw [if_pos h2] at h
        cases h
      · rw [if_neg h2] at h
        cases hrec : convertParams name clazz method (count + 1) rest with
        | error e => rw [hrec] at h; cases h
        | ok ps' =>
          rw [hrec] at h
          cases h
          rw [List.map_cons, if_pos hc, ← ih (count + 1) ps' hrec]
    · rw [if_neg hc] at h
      cases hrec : convertParams name clazz method count rest with
      | error e => rw [hrec] at h; cases h
      | ok ps' =>
        rw [hrec] at h
        cases h
        rw [List.map_cons, if_neg hc, ← ih count ps' hrec]

/-- Whenever the loop completes, parameter names and their order survive. -/
lemma convertParams_ok_names (name clazz method : String) :
    ∀ (count : Nat) (ps ps2 : List Param),
      convertParams name clazz method count ps = .ok ps2 →
      ps2.map Param.name = ps.map Param.name := by
  intro count ps ps2 h
  rw [convertParams_ok_eq name clazz method count ps ps2 h, List.map_map]
  refine List.map_congr_left fun p _ => ?_
  by_cases hc : crosswalkType p.p_type = "double*" ∧ pyStartsWith method "set" = true
  · simp [Function.comp, hc]
  · simp [Function.comp, hc]

/-- A method that is not a setter never triggers the array rules: the loop
always succeeds and only crosswalks the types. -/
lemma convertParams_no_set (name clazz method : String)
    (hset : pyStartsWith method "set" = false) :
    ∀ (count : Nat) (ps : List Param),
      convertParams name clazz method count ps =
        .ok (ps.map fun p => Param.mk (crosswalkType p.p_type) p.name) := by
  intro count ps
  induction ps generalizing count with
  | nil => rfl
  | cons p rest ih =>
    simp only [convertParams]
    rw [if_neg (by simp [hset]), ih count]
    rfl

/-- With at least two crosswalked `double*` parameters remaining for a
setter, the loop raises the array-arity `ValueError`. -/
lemma convertParams_err (name clazz method : String)
    (hset : pyStartsWith method "set" = true) :
    ∀ (ps : List Param) (count : Nat), count ≤ 1 →
      2 ≤ count + ps.countP (fun p => decide (crosswalkType p.p_type = "double*")) →
      convertParams name clazz method count ps = .error (.arrayArity name) := by
  intro ps
  induction ps with
  | nil =>
    intro count h1 h2
    rw [List.countP_nil] at h2
    omega
  | cons p rest ih =>
    intro count h1 h2
    simp only [convertParams]
    by_cases hd : crosswalkType p.p_type = "double*"
    · have hcp : (p :: rest).countP (fun p => decide (crosswalkType p.p_type = "double*"))
          = rest.countP (fun p => decide (crosswalkType p.p_type = "double*")) + 1 := by
        rw [List.countP_cons]
        simp [hd]
      rw [if_pos ⟨hd, hset⟩]
      by_cases hcnt : count + 1 > 1
      · rw [if_pos hcnt]
      · rw [if_neg hcnt]
        rw [ih (count + 1) (by omega) (by omega)]
    · have hcp : (p :: rest).countP (fun p => decide (crosswalkType p.p_type = "double*"))
          = rest.countP (fun p => decide (crosswalkType p.p_type = "double*")) := by
        rw [List.countP_cons]
        simp [hd]
      rw [if_neg (by simp [hd])]
      rw [ih count h1 (by omega)]

/-- With at most one crosswalked `double*` parameter in total, the loop
completes. -/
lemma convertParams_ok_le (name clazz method : String) :
    ∀ (ps : List Param) (count : Nat),
      count + ps.countP (fun p => decide (crosswalkType p.p_type = "double*")) ≤ 1 →
      ∃ ps2, convertParams name clazz method count ps = .ok ps2 := by
  intro ps
  induction ps with
  | nil => exact fun count _ => ⟨[], rfl⟩
  | cons p rest ih =>
    intro count hle
    simp only [convertParams]
    by_cases hc : crosswalkType p.p_type = "double*" ∧ pyStartsWith method "set" = true
    · have hcp : (p :: rest).countP (fun p => decide (crosswalkType p.p_type = "double*"))
          = rest.countP (fun p => decide (crosswalkType p.p_type = "double*")) + 1 := by
        rw [List.countP_cons]
        simp [hc.1]
      rw [if_pos hc]
      rw [if_neg (show ¬(count + 1 > 1) by omega)]
      obtain ⟨ps2, hps2⟩ := ih (count + 1) (by omega)
      rw [hps2]
      exact ⟨_, rfl⟩
    · rw [if_neg hc]
      by_cases hd : crosswalkType p.p_type = "double*"
      · have hcp : (p :: rest).countP (fun p => decide (crosswalkType p.p_type = "double*"))
            = rest.countP (fun p => decide (crosswalkType p.p_type = "double*")) + 1 := by
          rw [List.countP_cons]
          simp [hd]
        obtain ⟨ps2, hps2⟩ := ih count (by omega)
        rw [hps2]
        exact ⟨_, rfl⟩
      · have hcp : (p :: rest).countP (fun p => decide (crosswalkType p.p_type = "double*"))
            = rest.countP (fun p => decide (crosswalkType p.p_type = "double*")) := by
          rw [List.countP_cons]
          simp [hd]
        obtain ⟨ps2, hps2⟩ := ih count (by omega)
        rw [hps2]
        exact ⟨_, rfl⟩

/- ### Claim theorems -/

/-- C6: for a signature whose class prefix is neither the global prefix `ct`
nor a key of `handle_crosswalk`, `_convert_func` fails with the
`KeyError` on the crosswalk (the fatal UnknownClassError of the spec), and
the failing call registers nothing: the raise happens before the
`self._known_funcs[name] = func` insertion, so no `.ok` result (the only
constructor carrying an updated registry) is produced. -/
theorem convert_unknown_class_error
    (cfg : Config) (reg : Registry) (f : Func) (clazz method : String)
    (hsplit : splitFirst f.name = some (clazz, method))
    (hct : clazz ≠ "ct")
    (hnone : assocLookup cfg.handle_crosswalk clazz = none) :
    convert_func cfg reg f = .error (.unknownClass clazz)
    ∧ ∀ r : _CsFunc × Registry, convert_func cfg reg f ≠ .ok r := by
  have h1 : convert_func cfg reg f = .error (.unknownClass clazz) := by
    simp only [convert_func, hsplit, substStep, if_neg hct, hnone]
  exact ⟨h1, fun r hr => by rw [h1] at hr; cases hr⟩

def cfgC6 : Config := ⟨[]⟩

def fC6 : Func := ⟨"int", "mystery_thing", []⟩

/-- Witness for C6 at a concrete signature whose prefix is unregistered. -/
theorem convert_unknown_class_error_witness :
    convert_func cfgC6 [] fC6 = .error (.unknownClass "mystery") :=
  (convert_unknown_class_error cfgC6 [] fC6 "mystery" "thing" rfl (by decide) rfl).1

/-- C7: for a signature whose class prefix is the global prefix `ct`,
`_convert_func` performs no handle substitution: the produced return type
is exactly the crosswalk of the native return type, no handle is released,
the parameters are exactly the output of the crosswalk/setter-array loop on
the original parameter list, and the result does not depend on the
`handle_crosswalk` configuration at all. -/
theorem convert_global_no_handle_subst
    (cfg cfg2 : Config) (reg : Registry) (f : Func) (method : String)
    (cs_func : _CsFunc) (reg2 : Registry)
    (hsplit : splitFirst f.name = some ("ct", method))
    (hok : convert_func cfg reg f = .ok (cs_func, reg2)) :
    cs_func.ret_type = crosswalkType f.ret_type ∧ cs_func.del_clazz = none
    ∧ convertParams f.name "ct" method 0 f.params = .ok cs_func.params
    ∧ convert_func cfg2 reg f = convert_func cfg reg f := by
  have hsub : substStep cfg "ct" method f.ret_type f.params =
      .ok (f.ret_type, f.params, none) := by
    simp [substStep]
  simp only [convert_func, hsplit, hsub] at hok
  cases hcp : convertParams f.name "ct" method 0 f.params with
  | error e => rw [hcp] at hok; cases hok
  | ok ps2 =>
    rw [hcp] at hok
    injection hok with hok
    injection hok with h1 h2
    subst h1
    exact ⟨rfl, rfl, rfl, by simp [convert_func, hsplit, substStep]⟩

def cfgC7 : Config := ⟨[("shape", "Shape")]⟩

def fC7 : Func := ⟨"double", "ct_foo", [Param.mk "const double*" "data"]⟩

def csC7 : _CsFunc := ⟨"double", "ct_foo", [Param.mk "double[]" "data"], none⟩

/-- Witness for C7 at a concrete global function with one parameter. -/
theorem convert_global_no_handle_subst_witness :
    csC7.ret_type = crosswalkType fC7.ret_type ∧ csC7.del_clazz = none
    ∧ convertParams fC7.name "ct" "foo" 0 fC7.params = .ok csC7.params
    ∧ convert_func (Config.mk []) [] fC7 = convert_func cfgC7 [] fC7 :=
  convert_global_no_handle_subst cfgC7 (Config.mk []) [] fC7 "foo" csC7
    [("ct_foo", csC7)] rfl rfl

/-- The pure crosswalk of a whole parameter list (what the loop does to a
non-setter function's parameters). -/
def crosswalkMap (ps : List Param) : List Param :=
  ps.map fun p => Param.mk (crosswalkType p.p_type) p.name

/-- C5: for a non-global signature with a registered prefix, a method
starting with `del` is marked as releasing the handle class while its
return type is only crosswalked (never handle-substituted), and a method
starting with `new` gets its return type rewritten to the handle type;
in both cases the function is registered under its unmodified name. -/
theorem convert_del_new_classification
    (cfg : Config) (reg : Registry) (f : Func) (clazz method base : String)
    (hsplit : splitFirst f.name = some (clazz, method))
    (hct : clazz ≠ "ct")
    (hcw : assocLookup cfg.handle_crosswalk clazz = some base) :
    (pyStartsWith method "del" = true →
      convert_func cfg reg f =
        .ok (⟨crosswalkType f.ret_type, f.name, crosswalkMap f.params, some (base ++ "Handle")⟩,
             (f.name,
              (⟨crosswalkType f.ret_type, f.name, crosswalkMap f.params,
                some (base ++ "Handle")⟩ : _CsFunc)) :: reg))
    ∧ (pyStartsWith method "new" = true →
      convert_func cfg reg f =
        .ok (⟨base ++ "Handle", f.name, crosswalkMap f.params, none⟩,
             (f.name, (⟨base ++ "Handle", f.name, crosswalkMap f.params, none⟩ : _CsFunc))
               :: reg)) := by
  constructor
  · intro hdel
    have hset : pyStartsWith method "set" = false :=
      startsWith_disjoint method "del" "set" 'd' 's' ['e', 'l'] ['e', 't'] rfl rfl
        (by decide) hdel
    have hsub : substStep cfg clazz method f.ret_type f.params =
        .ok (f.ret_type, f.params, some (base ++ "Handle")) := by
      simp [substStep, hct, hcw, hdel]
    simp only [convert_func, hsplit, hsub,
      convertParams_no_set f.name clazz method hset 0]
    simp [crosswalkMap]
  · intro hnew
    have hset : pyStartsWith method "set" = false :=
      startsWith_disjoint method "new" "set" 'n' 's' ['e', 'w'] ['e', 't'] rfl rfl
        (by decide) hnew
    have hdel : pyStartsWith method "del" = false :=
      startsWith_disjoint method "new" "del" 'n' 'd' ['e', 'w'] ['e', 'l'] rfl rfl
        (by decide) hnew
    have hsub : substStep cfg clazz method f.ret_type f.params =
        .ok (base ++ "Handle", f.params, none) := by
      simp [substStep, hct, hcw, hdel, hnew]
    simp only [convert_func, hsplit, hsub,
      convertParams_no_set f.name clazz method hset 0, crosswalkType_handle]
    simp [crosswalkMap]

def cfgC5 : Config := ⟨[("shape", "Shape")]⟩

def fC5new : Func := ⟨"int", "shape_new", []⟩

def fC5del : Func := ⟨"int", "shape_del", [Param.mk "int" "handle"]⟩

/-- Witness for C5: `shape_new` gets return type `ShapeHandle`, and
`shape_del` is marked as releasing `ShapeHandle` with unchanged return
type. -/
theorem convert_del_new_classification_witness :
    convert_func cfgC5 [] fC5new =
      .ok (⟨"ShapeHandle", "shape_new", [], none⟩,
           [("shape_new", (⟨"ShapeHandle", "shape_new", [], none⟩ : _CsFunc))])
    ∧ convert_func cfgC5 [] fC5del =
      .ok (⟨"int", "shape_del", [Param.mk "int" "handle"], some "ShapeHandle"⟩,
           [("shape_del",
             (⟨"int", "shape_del", [Param.mk "int" "handle"], some "ShapeHandle"⟩ : _CsFunc))]) :=
  ⟨(convert_del_new_classification cfgC5 [] fC5new "shape" "new" "Shape" rfl
      (by decide) rfl).2 rfl,
   (convert_del_new_classification cfgC5 [] fC5del "shape" "del" "Shape" rfl
      (by decide) rfl).1 rfl⟩

/-- C1: for a signature whose prefix is a registered non-global class and
whose method starts with neither `del` nor `new`, whenever `_convert_func`
produces a converted function (it can still abort on the setter
array-arity rule), that function's parameter 0 has the handle type
(crosswalk value with `Handle` appended) and its original name, and the
names and order of all parameters are unchanged. -/
theorem convert_instance_first_param
    (cfg : Config) (reg : Registry) (f : Func) (clazz method base : String)
    (p0 : Param) (cs_func : _CsFunc) (reg2 : Registry)
    (hsplit : splitFirst f.name = some (clazz, method))
    (hct : clazz ≠ "ct")
    (hcw : assocLookup cfg.handle_crosswalk clazz = some base)
    (hdel : pyStartsWith method "del" = false)
    (hnew : pyStartsWith method "new" = false)
    (hp0 : f.params.head? = some p0)
    (hok : convert_func cfg reg f = .ok (cs_func, reg2)) :
    cs_func.params.head? = some (Param.mk (base ++ "Handle") p0.name)
    ∧ cs_func.params.map Param.name = f.params.map Param.name := by
  cases hps : f.params with
  | nil => rw [hps] at hp0; cases hp0
  | cons q rest =>
    rw [hps] at hp0
    injection hp0 with hq
    subst hq
    have hsub : substStep cfg clazz method f.ret_type f.params =
        .ok (f.ret_type, Param.mk (base ++ "Handle") q.name :: rest, none) := by
      rw [hps]
      simp [substStep, hct, hcw, hdel, hnew]
    simp only [convert_func, hsplit, hsub] at hok
    cases hcp : convertParams f.name clazz method 0
        (Param.mk (base ++ "Handle") q.name :: rest) with
    | error e => rw [hcp] at hok; cases hok
    | ok ps2 =>
      rw [hcp] at hok
      injection hok with hok
      injection hok with h1 h2
      subst h1
      have hform := convertParams_ok_eq f.name clazz method 0 _ ps2 hcp
      have hnames := convertParams_ok_names f.name clazz method 0 _ ps2 hcp
      have hne : ¬(crosswalkType (base ++ "Handle") = "double*"
          ∧ pyStartsWith method "set" = true) := by
        rw [crosswalkType_handle]
        intro hcontra
        exact handle_ne_doublestar base hcontra.1
      constructor
      · show ps2.head? = _
        rw [hform]
        simp only [List.map_cons, List.head?_cons]
        rw [if_neg hne, crosswalkType_handle]
      · show ps2.map Param.name = _
        rw [hnames]
        simp

def cfgC1 : Config := ⟨[("shape", "Shape")]⟩

def fC1 : Func := ⟨"int", "shape_area", [Param.mk "int" "handle", Param.mk "double*" "area"]⟩

def csC1 : _CsFunc :=
  ⟨"int", "shape_area", [Param.mk "ShapeHandle" "handle", Param.mk "double*" "area"], none⟩

/-- Witness for C1 at a concrete two-parameter instance method. -/
theorem convert_instance_first_param_witness :
    csC1.params.head? = some (Param.mk ("Shape" ++ "Handle") "handle")
    ∧ csC1.params.map Param.name = fC1.params.map Param.name :=
  convert_instance_first_param cfgC1 [] fC1 "shape" "area" "Shape"
    (Param.mk "int" "handle") csC1 [("shape_area", csC1)]
    rfl (by decide) rfl rfl rfl rfl rfl

/-- The image of a parameter list under the thermo pair-setter rewrite:
a crosswalked `double*` becomes the fixed pair-pointer type, everything
else is just crosswalked. -/
def thermoPairMap (ps : List Param) : List Param :=
  ps.map fun p =>
    if crosswalkType p.p_type = "double*" then Param.mk "(double, double)*" p.name
    else Param.mk (crosswalkType p.p_type) p.name

/-- C3: for a signature of class `thermo` whose method matches
`^set_[A-Z]{2}$`, whenever `_convert_func` produces a converted
function, its parameter 0 is the handle and every further parameter whose
crosswalked type is `double*` has become the fixed pair-pointer type
`(double, double)*` (never `double[]`). -/
theorem convert_thermo_pair_setter
    (cfg : Config) (reg : Registry) (f : Func) (method base : String)
    (p0 : Param) (cs_func : _CsFunc) (reg2 : Registry)
    (hsplit : splitFirst f.name = some ("thermo", method))
    (hmatch : setPairMatch method = true)
    (hcw : assocLookup cfg.handle_crosswalk "thermo" = some base)
    (hp0 : f.params.head? = some p0)
    (hok : convert_func cfg reg f = .ok (cs_func, reg2)) :
    cs_func.params = Param.mk (base ++ "Handle") p0.name :: thermoPairMap f.params.tail := by
  have hset := pyStartsWith_set_of_setPairMatch method hmatch
  have hdel : pyStartsWith method "del" = false :=
    startsWith_disjoint method "set" "del" 's' 'd' ['e', 't'] ['e', 'l'] rfl rfl
      (by decide) hset
  have hnew : pyStartsWith method "new" = false :=
    startsWith_disjoint method "set" "new" 's' 'n' ['e', 't'] ['e', 'w'] rfl rfl
      (by decide) hset
  cases hps : f.params with
  | nil => rw [hps] at hp0; cases hp0
  | cons q rest =>
    rw [hps] at hp0
    injection hp0 with hq
    subst hq
    have hsub : substStep cfg "thermo" method f.ret_type f.params =
        .ok (f.ret_type, Param.mk (base ++ "Handle") q.name :: rest, none) := by
      rw [hps]
      simp [substStep, hcw, hdel, hnew, show ("thermo" : String) ≠ "ct" from by decide]
    simp only [convert_func, hsplit, hsub] at hok
    cases hcp : convertParams f.name "thermo" method 0
        (Param.mk (base ++ "Handle") q.name :: rest) with
    | error e => rw [hcp] at hok; cases hok
    | ok ps2 =>
      rw [hcp] at hok
      injection hok with hok
      injection hok with h1 h2
      subst h1
      have hform := convertParams_ok_eq f.name "thermo" method 0 _ ps2 hcp
      have hne : ¬(crosswalkType (base ++ "Handle") = "double*"
          ∧ pyStartsWith method "set" = true) := by
        rw [crosswalkType_handle]
        intro hcontra
        exact handle_ne_doublestar base hcontra.1
      show ps2 = _
      rw [hform]
      simp only [List.map_cons, List.tail_cons, List.cons.injEq]
      constructor
      · rw [if_neg hne, crosswalkType_handle]
      · simp [thermoPairMap, hset, hmatch]

def cfgC3 : Config := ⟨[("thermo", "ThermoPhase")]⟩

def fC3 : Func := ⟨"int", "thermo_set_TP", [Param.mk "int" "n", Param.mk "double*" "values"]⟩

def csC3 : _CsFunc :=
  ⟨"int", "thermo_set_TP",
   [Param.mk "ThermoPhaseHandle" "n", Param.mk "(double, double)*" "values"], none⟩

/-- Witness for C3 at the concrete `thermo_set_TP` signature. -/
theorem convert_thermo_pair_setter_witness :
    csC3.params = Param.mk ("ThermoPhase" ++ "Handle") "n" :: thermoPairMap fC3.params.tail :=
  convert_thermo_pair_setter cfgC3 [] fC3 "set_TP" "ThermoPhase"
    (Param.mk "int" "n") csC3 [("thermo_set_TP", csC3)] rfl rfl rfl rfl rfl

/-- The image of a parameter list under the general setter-array rewrite:
a crosswalked `double*` becomes `double[]`, everything else is just
crosswalked. -/
def setterArrayMap (ps : List Param) : List Param :=
  ps.map fun p =>
    if crosswalkType p.p_type = "double*" then Param.mk "double[]" p.name
    else Param.mk (crosswalkType p.p_type) p.name

/-- C2: for a setter method (after the handle-substitution step produced the
parameter list `ps1`), two or more parameters whose crosswalked type is the
raw `double*` make `_convert_func` raise the array-arity `ValueError` and
register nothing, while exactly one such parameter (outside the thermo
pair sub-case) converts successfully with that parameter's type rewritten
to `double[]`. -/
theorem convert_setter_double_array
    (cfg : Config) (reg : Registry) (f : Func) (clazz method ret2 : String)
    (ps1 : List Param) (dc : Option String)
    (hsplit : splitFirst f.name = some (clazz, method))
    (hset : pyStartsWith method "set" = true)
    (hsub : substStep cfg clazz method f.ret_type f.params = .ok (ret2, ps1, dc)) :
    (2 ≤ ps1.countP (fun p => decide (crosswalkType p.p_type = "double*")) →
      convert_func cfg reg f = .error (.arrayArity f.name))
    ∧ (ps1.countP (fun p => decide (crosswalkType p.p_type = "double*")) = 1 →
      ¬(clazz = "thermo" ∧ setPairMatch method = true) →
      convert_func cfg reg f =
        .ok (⟨crosswalkType ret2, f.name, setterArrayMap ps1, dc⟩,
             (f.name, (⟨crosswalkType ret2, f.name, setterArrayMap ps1, dc⟩ : _CsFunc))
               :: reg)) := by
  constructor
  · intro hcnt
    have herr := convertParams_err f.name clazz method hset ps1 0 (by omega) (by omega)
    simp only [convert_func, hsplit, hsub, herr]
  · intro hcnt hnp
    obtain ⟨ps2, hps2⟩ := convertParams_ok_le f.name clazz method ps1 0 (by omega)
    have hform := convertParams_ok_eq f.name clazz method 0 ps1 ps2 hps2
    simp only [convert_func, hsplit, hsub, hps2]
    rw [hform]
    simp [setterArrayMap, hset, hnp]

def fC2 : Func := ⟨"int", "ct_setStuff", [Param.mk "double*" "a", Param.mk "double*" "b"]⟩

def fC2b : Func := ⟨"int", "ct_setVolume", [Param.mk "double*" "v"]⟩

/-- Witness for C2: a setter with two raw `double*` parameters raises the
array-arity error; a setter with exactly one converts it to `double[]`. -/
theorem convert_setter_double_array_witness :
    convert_func (Config.mk []) [] fC2 = .error (.arrayArity "ct_setStuff")
    ∧ convert_func (Config.mk []) [] fC2b =
      .ok (⟨"int", "ct_setVolume", setterArrayMap fC2b.params, none⟩,
           [("ct_setVolume",
             (⟨"int", "ct_setVolume", setterArrayMap fC2b.params, none⟩ : _CsFunc))]) :=
  ⟨(convert_setter_double_array (Config.mk []) [] fC2 "ct" "setStuff" "int"
      fC2.params none rfl rfl rfl).1 (by decide),
   (convert_setter_double_array (Config.mk []) [] fC2b "ct" "setVolume" "int"
      fC2b.params none rfl rfl rfl).2 (by decide) (by decide)⟩

/-- C8: conversion and declaration rendering are deterministic. The only
state the source touches is the registry, which each run recreates empty,
and the `_type_map` iteration order is the fixed declaration order, so two
separate runs over the same unit with the same configuration (each from a
fresh empty registry) produce byte-identical declaration text for every
function. -/
theorem decl_rendering_deterministic
    (cfg1 cfg2 : Config) (funcs1 funcs2 : List Func)
    (hcfg : cfg1 = cfg2) (hfuncs : funcs1 = funcs2) :
    declsOfUnit cfg1 funcs1 = declsOfUnit cfg2 funcs2 := by
  rw [hcfg, hfuncs]

def cfgC8 : Config := ⟨[("shape", "Shape")]⟩

def funcsC8 : List Func :=
  [⟨"int", "shape_new", []⟩,
   ⟨"int", "shape_del", [Param.mk "int" "handle"]⟩,
   ⟨"double", "ct_foo", [Param.mk "const double*" "data"]⟩]

/-- Witness for C8 at a concrete three-function unit. -/
theorem decl_rendering_deterministic_witness :
    declsOfUnit cfgC8 funcsC8 = declsOfUnit cfgC8 funcsC8 :=
  decl_rendering_deterministic cfgC8 cfgC8 funcsC8 funcsC8 rfl rfl

/-- C9: the rendered foreign-function declaration carries the `unsafe`
marker exactly when some parameter's mapped type ends in `*` (the managed
substitutes `string` and `double[]` do not end in `*`), and in both shapes
the declaration embeds the parameters joined in order, each as its type
followed by its unmodified name. -/
theorem function_text_unsafe_iff (f : _CsFunc) :
    (_get_function_text f =
        _prolog ++ " unsafe " ++ f.ret_type ++ " " ++ f.name
          ++ "(" ++ _join_params f.params ++ ");"
      ↔ ∃ p ∈ f.params, pyEndsWith p.p_type "*" = true)
    ∧ (_get_function_text f =
        _prolog ++ " " ++ f.ret_type ++ " " ++ f.name
          ++ "(" ++ _join_params f.params ++ ");"
      ↔ ¬∃ p ∈ f.params, pyEndsWith p.p_type "*" = true)
    ∧ pyEndsWith "string" "*" = false ∧ pyEndsWith "double[]" "*" = false := by
  have hne : _prolog ++ " unsafe " ++ f.ret_type ++ " " ++ f.name
        ++ "(" ++ _join_params f.params ++ ");" ≠
      _prolog ++ " " ++ f.ret_type ++ " " ++ f.name
        ++ "(" ++ _join_params f.params ++ ");" := by
    intro e
    have hl := congrArg String.length e
    simp only [String.length_append] at hl
    rw [show (" unsafe " : String).length = 8 from rfl,
        show (" " : String).length = 1 from rfl] at hl
    omega
  cases hany : f.params.any (fun p => pyEndsWith p.p_type "*") with
  | true =>
    have htext : _get_function_text f =
        _prolog ++ " unsafe " ++ f.ret_type ++ " " ++ f.name
          ++ "(" ++ _join_params f.params ++ ");" := by
      simp [_get_function_text, hany]
    have hex : ∃ p ∈ f.params, pyEndsWith p.p_type "*" = true :=
      List.any_eq_true.mp hany
    refine ⟨⟨fun _ => hex, fun _ => htext⟩,
            ⟨fun h => absurd (htext.symm.trans h) hne,
             fun h => (h hex).elim⟩,
            by decide, by decide⟩
  | false =>
    have htext : _get_function_text f =
        _prolog ++ " " ++ f.ret_type ++ " " ++ f.name
          ++ "(" ++ _join_params f.params ++ ");" := by
      simp [_get_function_text, hany]
    have hnex : ¬∃ p ∈ f.params, pyEndsWith p.p_type "*" = true := by
      intro hex
      rw [← List.any_eq_true] at hex
      rw [hany] at hex
      exact Bool.noConfusion hex
    refine ⟨⟨fun h => absurd (h.symm.trans htext) hne,
             fun hex => (hnex hex).elim⟩,
            ⟨fun _ => hnex, fun _ => htext⟩,
            by decide, by decide⟩

def getterC4 : _CsFunc :=
  ⟨"string", "foo_bar",
   [Param.mk "FooHandle" "handle", Param.mk "int" "buflen", Param.mk "byte*" "buf"], none⟩

def regC4 : Registry := [("foo_bar", getterC4)]

/-- Counterexample to C4 as stated: the registry resolves `foo_bar` as a
scalar property whose getter's return type is `string` (outside the
enumerated numeric scalar set `int`/`double`), yet `_get_property_text`
does not fail with the unsupported-type error — it falls into the textual
branch and renders successfully. -/
theorem scalar_string_getter_renders_text :
    assocLookup regC4 "foo_bar" = some getterC4
    ∧ getterC4.ret_type ≠ "int" ∧ getterC4.ret_type ≠ "double"
    ∧ _get_property_text regC4 "foo" "bar" "Bar" =
        .ok (normalize (stringPropText "Bar" "foo_bar" "int" none)) := by
  refine ⟨rfl, by decide, by decide, ?_⟩
  rfl

/-- C4 (amended): when the registry contains `clazz + "_" + c_name`, the
property is scalar with the getter's return type; return types `int` and
`double` render as scalar accessors, a return type of `string` is instead
handled by the textual branch, and every return type outside
`int`/`double`/`string` fails with the fatal `ValueError` naming the
offending type — never silently coerced. -/
theorem property_scalar_type_restriction
    (known_funcs : Registry) (clazz c_name cs_name : String) (getter : _CsFunc)
    (hg : assocLookup known_funcs (clazz ++ "_" ++ c_name) = some getter) :
    (getter.ret_type = "int" ∨ getter.ret_type = "double" →
      _get_property_text known_funcs clazz c_name cs_name =
        .ok (normalize (scalarPropText getter.ret_type cs_name getter.name
          (assocLookup known_funcs (clazz ++ "_set" ++ pyCapitalize c_name)))))
    ∧ (getter.ret_type ≠ "int" → getter.ret_type ≠ "double" → getter.ret_type ≠ "string" →
      _get_property_text known_funcs clazz c_name cs_name =
        .error (.unsupported getter.ret_type)) := by
  constructor
  · intro hscalar
    simp only [_get_property_text, hg, renderPropText, if_pos hscalar]
  · intro h1 h2 h3
    have hcond : ¬(getter.ret_type = "int" ∨ getter.ret_type = "double") := by
      intro h
      cases h with
      | inl h => exact h1 h
      | inr h => exact h2 h
    simp only [_get_property_text, hg, renderPropText, if_neg hcond, if_neg h3]

def getterC4b : _CsFunc := ⟨"nuint", "foo_count", [], none⟩

def regC4b : Registry := [("foo_count", getterC4b)]

/-- Witness for the amended C4: a scalar getter returning `nuint` makes
property rendering fail with the error naming `nuint`. -/
theorem property_scalar_type_restriction_witness :
    _get_property_text regC4b "foo" "count" "Count" = .error (.unsupported "nuint") :=
  (property_scalar_type_restriction regC4b "foo" "count" "Count" getterC4b rfl).2
    (by decide) (by decide) (by decide)

/-- C10: for a property resolved as textual through the array/string path
(scalar lookup missed, `clazz + "_get" + capitalize(c_name)` found, and the
getter's last parameter crosswalks to the textual property type), the
emitted getter invokes the native function with exactly the three
arguments `_handle`, a cast `length` and `buffer`, where the cast type is
the type of the getter's parameter at index 1 — even though the property's
public type came from the last parameter — so rendering succeeds only when
the getter has at least two parameters, and raises the `IndexError`
otherwise. -/
theorem string_property_three_arg_call
    (known_funcs : Registry) (clazz c_name cs_name : String)
    (getter : _CsFunc) (lastp : Param)
    (h0 : assocLookup known_funcs (clazz ++ "_" ++ c_name) = none)
    (h1 : assocLookup known_funcs (clazz ++ "_get" ++ pyCapitalize c_name) = some getter)
    (h2 : getter.params.getLast? = some lastp)
    (h3 : lastp.p_type = "byte*") :
    (getter.params.get? 1 = none →
      _get_property_text known_funcs clazz c_name cs_name = .error .indexError)
    ∧ (∀ p1 : Param, getter.params.get? 1 = some p1 →
      2 ≤ getter.params.length ∧
      _get_property_text known_funcs clazz c_name cs_name =
        .ok (normalize ("\n                public unsafe string " ++ cs_name
          ++ "\n                \x7b\n                    get => InteropUtil.GetString(40, (length, buffer) =>\n                        "
          ++ ("LibCantera." ++ getter.name ++ "(_handle, (" ++ p1.p_type ++ ") length, buffer));")
          ++ "\n            "
          ++ setterClause (assocLookup known_funcs (clazz ++ "_set" ++ pyCapitalize c_name))
          ++ "\n                \x7d\n            "))) := by
  have hpt : assocLookup _prop_type_map lastp.p_type = some "string" := by
    rw [h3]
    rfl
  have hmain : _get_property_text known_funcs clazz c_name cs_name =
      renderPropText known_funcs clazz c_name cs_name getter "string" := by
    simp only [_get_property_text, h0, h1, h2, hpt]
  have hnum : ¬(("string" : String) = "int" ∨ ("string" : String) = "double") := by decide
  constructor
  · intro hnone
    rw [hmain]
    simp only [renderPropText, if_neg hnum, hnone]
    simp
  · intro p1 hp1
    have hlen : 2 ≤ getter.params.length := by
      rcases List.get?_eq_some.mp hp1 with ⟨hlt, _⟩
      omega
    refine ⟨hlen, ?_⟩
    rw [hmain]
    simp only [renderPropText, if_neg hnum, hp1]
    simp [stringPropText]

def getterC10 : _CsFunc :=
  ⟨"int", "surf_getName",
   [Param.mk "SurfHandle" "handle", Param.mk "int" "buflen", Param.mk "byte*" "buf"], none⟩

def regC10 : Registry := [("surf_getName", getterC10)]

/-- Witness for C10 at a concrete three-parameter string getter. -/
theorem string_property_three_arg_call_witness :
    2 ≤ getterC10.params.length ∧
    _get_property_text regC10 "surf" "name" "Name" =
      .ok (normalize ("\n                public unsafe string " ++ "Name"
        ++ "\n                \x7b\n                    get => InteropUtil.GetString(40, (length, buffer) =>\n                        "
        ++ ("LibCantera." ++ getterC10.name ++ "(_handle, (" ++ "int" ++ ") length, buffer));")
        ++ "\n            "
        ++ setterClause (assocLookup regC10 ("surf" ++ "_set" ++ pyCapitalize "name"))
        ++ "\n                \x7d\n            ")) :=
  (string_property_three_arg_call regC10 "surf" "name" "Name" getterC10
      (Param.mk "byte*" "buf") rfl rfl rfl rfl).2 (Param.mk "int" "buflen") rfl

end CanteraCs
